import Mathlib

/-!
Shallow embedding of the render-target binding and command-recording logic of
the LLGL repository, covering `VKCommandBuffer.cpp` (Vulkan command recorder)
and `GLRenderTarget.cpp` (OpenGL render-target binder).  Every definition is
translated from the corresponding source function; native GPU effects are
modelled as explicit call lists, machine integers as `Nat`, and C++ exceptions
as `Except` values.
-/

set_option maxRecDepth 10000

namespace VK

/-- One recorded native Vulkan call, as far as the verified claims observe it. -/
inductive VKCall where
  | cmdSetViewport (first count : Nat)
  | cmdEndCommandBuffer
deriving DecidableEq

/-- `g_maxNumViewportsPerBatch` from VKCommandBuffer.cpp line 28. -/
def g_maxNumViewportsPerBatch : Nat := 16

/-- The loop of `VKCommandBuffer::SetViewports` (lines 102-111).  The C++ loop
is `for (i = 0, first = 0, count = 0; i < numViewports; numViewports -= count)`
with `count = min(numViewports, g_maxNumViewportsPerBatch)`, the inner loop
advancing `i` to `first + count`, and one `vkCmdSetViewport(first, count)`
per iteration.  Only the loop-control arithmetic is state here; the viewport
payload conversion carries no translated logic. -/
def setViewportsLoop (i numViewports : Nat) : List VKCall :=
  if _h : i < numViewports then
    let count := min numViewports g_maxNumViewportsPerBatch
    VKCall.cmdSetViewport i count :: setViewportsLoop (i + count) (numViewports - count)
  else
    []
termination_by numViewports
decreasing_by
  simp only [g_maxNumViewportsPerBatch]
  omega

/-- `VKCommandBuffer::SetViewports` (lines 89-113): the sequence of native
`vkCmdSetViewport` calls issued for `numViewports` input viewports. -/
def SetViewports (numViewports : Nat) : List VKCall :=
  setViewportsLoop 0 numViewports

/-! ### Clear flags and clear-attachment translation (VKCommandBuffer.cpp) -/

/-- `VK_IMAGE_ASPECT_COLOR_BIT` of the Vulkan headers. -/
def VK_IMAGE_ASPECT_COLOR_BIT : Nat := 1

/-- `VK_IMAGE_ASPECT_DEPTH_BIT` of the Vulkan headers. -/
def VK_IMAGE_ASPECT_DEPTH_BIT : Nat := 2

/-- `VK_IMAGE_ASPECT_STENCIL_BIT` of the Vulkan headers. -/
def VK_IMAGE_ASPECT_STENCIL_BIT : Nat := 4

/-- `ClearFlags::Color` from include/LLGL/CommandBufferFlags.h (`1 << 0`). -/
def ClearFlagsColor : Nat := 1

/-- `ClearFlags::Depth` from include/LLGL/CommandBufferFlags.h (`1 << 1`). -/
def ClearFlagsDepth : Nat := 2

/-- `ClearFlags::Stencil` from include/LLGL/CommandBufferFlags.h (`1 << 2`). -/
def ClearFlagsStencil : Nat := 4

/-- `ClearFlags::DepthStencil = Depth | Stencil`. -/
def ClearFlagsDepthStencil : Nat := ClearFlagsDepth ||| ClearFlagsStencil

/-- `g_maxNumColorAttachments` from VKCommandBuffer.cpp line 146. -/
def g_maxNumColorAttachments : Nat := 32

/-- The `clearValue` union member of `VkClearAttachment`.  The float payloads
carry no logic in the recorder (they are only copied), so the cached color and
depth/stencil values are modelled as opaque `Nat` tokens. -/
inductive VKClearValue where
  | color (value : Nat)
  | depthStencil (depth stencil : Nat)
deriving DecidableEq

/-- `VkClearAttachment` as filled in by `Clear` / `ClearAttachments`. -/
structure VKClearAttachment where
  aspectMask : Nat
  colorAttachment : Nat
  clearValue : VKClearValue
deriving DecidableEq

/-- `VkClearRect` as filled in by `ClearFramebufferAttachments`. -/
structure VKClearRect where
  offsetX : Nat
  offsetY : Nat
  extent : Nat × Nat
  baseArrayLayer : Nat
  layerCount : Nat
deriving DecidableEq

/-- The member state of `VKCommandBuffer` that the verified claims observe.
The `commandBufferActiveIt_` iterator is modelled as an offset from
`commandBufferActiveList_.begin()`, so `end()` corresponds to the offset
`commandBufferActiveList.length`.  Fences are modelled by their device-side
signaled state; command-buffer handles by their index in the list. -/
structure VKCommandBufferState where
  commandBufferList : List Nat
  commandBufferActiveList : List Bool
  commandBufferActiveIdx : Nat
  currentCommandBuffer : Nat
  recordingFenceSignaled : List Bool
  recordingFenceIdx : Nat
  clearColor : Nat := 0
  clearDepth : Nat := 0
  clearStencil : Nat := 0
  numColorAttachments : Nat := 0
  hasDSVAttachment : Bool := false
  framebufferExtent : Nat × Nat := (0, 0)
  scissorEnabled : Bool := false
  scissorRectInvalidated : Bool := false
deriving DecidableEq

/-- `GetDepthStencilAspectMask` (lines 167-177): builds the aspect mask from
the requested `Depth`/`Stencil` clear bits. -/
def GetDepthStencilAspectMask (flags : Nat) : Nat :=
  let aspectMask : Nat := 0
  let aspectMask := if flags &&& ClearFlagsDepth ≠ 0 then aspectMask ||| VK_IMAGE_ASPECT_DEPTH_BIT else aspectMask
  let aspectMask := if flags &&& ClearFlagsStencil ≠ 0 then aspectMask ||| VK_IMAGE_ASPECT_STENCIL_BIT else aspectMask
  aspectMask

/-- `VKCommandBuffer::Clear` (lines 179-213): the list of clear entries built
into the local `attachments` array before submission.  If the `Color` bit is
set, one entry per bound color attachment (capped at 32) with consecutive
`colorAttachment` indices and the cached clear color; then, if a depth or
stencil clear is requested and the active target has a depth-stencil
attachment, one combined entry with the aspect mask derived from the flags. -/
def Clear (s : VKCommandBufferState) (flags : Nat) : List VKClearAttachment :=
  let colorEntries :=
    if flags &&& ClearFlagsColor ≠ 0 then
      (List.range (min s.numColorAttachments g_maxNumColorAttachments)).map
        (fun i => { aspectMask := VK_IMAGE_ASPECT_COLOR_BIT
                    colorAttachment := i
                    clearValue := VKClearValue.color s.clearColor })
    else
      []
  if flags &&& ClearFlagsDepthStencil ≠ 0 ∧ s.hasDSVAttachment then
    colorEntries ++
      [{ aspectMask := GetDepthStencilAspectMask flags
         colorAttachment := 0
         clearValue := VKClearValue.depthStencil s.clearDepth s.clearStencil }]
  else
    colorEntries

/-- `VKCommandBuffer::ClearFramebufferAttachments` (lines 731-746): if any
entry was produced, a single `vkCmdClearAttachments` call over the full
framebuffer extent with `baseArrayLayer = 0` and `layerCount = 1`; otherwise
no native call. -/
def ClearFramebufferAttachments (s : VKCommandBufferState) (entries : List VKClearAttachment) :
    List (List VKClearAttachment × VKClearRect) :=
  if entries.length > 0 then
    [(entries, { offsetX := 0, offsetY := 0, extent := s.framebufferExtent
                 baseArrayLayer := 0, layerCount := 1 })]
  else
    []

/-- The native clear-attachments submissions produced by `Clear` (lines 179-213
followed by 731-746). -/
def ClearCalls (s : VKCommandBufferState) (flags : Nat) :
    List (List VKClearAttachment × VKClearRect) :=
  ClearFramebufferAttachments s (Clear s flags)

/-! ### Recording lifecycle (VKCommandBuffer.cpp) -/

/-- The recording-state error named by the spec for `EndRecording` while idle.
The source never raises it; the type exists so the claim can be stated. -/
inductive RecordingError where
  | recordingNotActive
deriving DecidableEq

/-- `vkCreateFence` with `flags = 0` (lines 711-722): the fence is created
unsignaled. -/
def createFence : Bool := false

/-- `vkQueueSubmit(graphicsQueue, 0, nullptr, fence)` (line 725): an empty
submission whose only effect is to signal the fence. -/
def queueSubmitNoOp (_fence : Bool) : Bool := true

/-- `VKCommandBuffer::CreateRecordingFences` (lines 707-729): creates
`numFences` fences and pre-signals each with an initial no-op submission. -/
def CreateRecordingFences (numFences : Nat) : List Bool :=
  List.replicate numFences (queueSubmitNoOp createFence)

/-- The `VKCommandBuffer` constructor (lines 30-38) together with
`CreateCommandBuffers` (lines 684-705) and `CreateRecordingFences`
(lines 707-729): allocates `bufferCount` command buffers, selects the front
one as current, resizes the activity list to `bufferCount` entries (all
`false`) and sets the activity iterator to `commandBufferActiveList_.end()`,
i.e. offset `bufferCount`; allocates `bufferCount` pre-signaled fences and
selects the front one. -/
def VKCommandBufferCreate (bufferCount : Nat) : VKCommandBufferState :=
  { commandBufferList := List.range bufferCount
    commandBufferActiveList := List.replicate bufferCount false
    commandBufferActiveIdx := (List.replicate bufferCount false).length
    currentCommandBuffer := 0
    recordingFenceSignaled := CreateRecordingFences bufferCount
    recordingFenceIdx := 0 }

/-- `VKCommandBuffer::SetPresentIndex` (lines 566-571): selects command buffer,
activity-list position and fence `idx`. -/
def SetPresentIndex (s : VKCommandBufferState) (idx : Nat) : VKCommandBufferState :=
  { s with currentCommandBuffer := idx
           commandBufferActiveIdx := idx
           recordingFenceIdx := idx }

/-- `VKCommandBuffer::IsCommandBufferActive` (lines 573-576) reads
`*commandBufferActiveIt_`.  The read is modelled with `List.get?`: a `none`
result is exactly the case where the C++ code dereferences a past-the-end
iterator. -/
def IsCommandBufferActive (s : VKCommandBufferState) : Option Bool :=
  s.commandBufferActiveList.get? s.commandBufferActiveIdx

/-- `vkWaitForFences` at the start of `BeginCommandBuffer` (line 581) blocks
the calling thread exactly when the current recording fence is not signaled. -/
def beginWouldBlock (s : VKCommandBufferState) : Bool :=
  !(s.recordingFenceSignaled.getD s.recordingFenceIdx false)

/-- `VKCommandBuffer::BeginCommandBuffer` (lines 578-597): waits on and resets
the current fence, begins the native command buffer and marks the slot
active. -/
def BeginCommandBuffer (s : VKCommandBufferState) : VKCommandBufferState :=
  { s with recordingFenceSignaled := s.recordingFenceSignaled.set s.recordingFenceIdx false
           commandBufferActiveList := s.commandBufferActiveList.set s.commandBufferActiveIdx true }

/-- `VKCommandBuffer::EndCommandBuffer` (lines 599-607): unconditionally calls
`vkEndCommandBuffer` on the current command buffer and stores `false` through
the activity iterator.  The source performs no is-active check, so the result
is never `RecordingError.recordingNotActive`; the `Except` result type only
serves to state the spec's claimed failure. -/
def EndCommandBuffer (s : VKCommandBufferState) :
    Except RecordingError (VKCommandBufferState × List VKCall) :=
  .ok ({ s with commandBufferActiveList := s.commandBufferActiveList.set s.commandBufferActiveIdx false },
       [VKCall.cmdEndCommandBuffer])

end VK

namespace OpenGL

/-! ### OpenGL constants used by GLRenderTarget.cpp -/

/-- `GL_DEPTH_BUFFER_BIT` of the OpenGL headers. -/
def GL_DEPTH_BUFFER_BIT : Nat := 0x00000100

/-- `GL_STENCIL_BUFFER_BIT` of the OpenGL headers. -/
def GL_STENCIL_BUFFER_BIT : Nat := 0x00000400

/-- `GL_COLOR_BUFFER_BIT` of the OpenGL headers. -/
def GL_COLOR_BUFFER_BIT : Nat := 0x00004000

/-- `GL_COLOR_ATTACHMENT0` of the OpenGL headers. -/
def GL_COLOR_ATTACHMENT0 : Nat := 0x8CE0

/-- `GL_DEPTH_ATTACHMENT` of the OpenGL headers. -/
def GL_DEPTH_ATTACHMENT : Nat := 0x8D00

/-- `GL_STENCIL_ATTACHMENT` of the OpenGL headers. -/
def GL_STENCIL_ATTACHMENT : Nat := 0x8D20

/-- `GL_DEPTH_STENCIL_ATTACHMENT` of the OpenGL headers. -/
def GL_DEPTH_STENCIL_ATTACHMENT : Nat := 0x821A

/-- `GL_BACK` of the OpenGL headers. -/
def GL_BACK : Nat := 0x0405

/-- `GL_READ_FRAMEBUFFER` of the OpenGL headers. -/
def GL_READ_FRAMEBUFFER : Nat := 0x8CA8

/-- `GL_DRAW_FRAMEBUFFER` of the OpenGL headers. -/
def GL_DRAW_FRAMEBUFFER : Nat := 0x8CA9

/-- `g_maxFramebufferAttachments` from GLRenderTarget.cpp line 26. -/
def g_maxFramebufferAttachments : Nat := 32

/-! ### Descriptor data model (include/LLGL/RenderTargetFlags.h) -/

/-- `LLGL::AttachmentType`. -/
inductive AttachmentType where
  | Color
  | Depth
  | DepthStencil
  | Stencil
deriving DecidableEq

/-- The classification of a texture's GL internal format as queried by
`GetTexInternalFormat` (GLRenderTarget.cpp lines 303-312) and branched on by
`MakeFramebufferAttachment` (lines 414-446): `GL_DEPTH_COMPONENT`,
`GL_DEPTH_STENCIL`, or any other (color) format. -/
inductive GLTexFormat where
  | depthComponent
  | depthStencil
  | other
deriving DecidableEq

/-- `LLGL::AttachmentDescriptor`, restricted to the fields the binder's
control flow reads: the attachment type and whether a texture is bound
(together with the internal-format class the GL query would report for it).
`mipLevel` and `arrayLayer` select sub-resources only and carry no
translated logic. -/
structure AttachmentDescriptor where
  type : AttachmentType
  texture : Option GLTexFormat
deriving DecidableEq

/-- `LLGL::RenderTargetDescriptor`, restricted to the fields
`GLRenderTarget` reads.  `multiSamples` is the value of
`desc.multiSampling.SampleCount()`. -/
structure RenderTargetDescriptor where
  width : Nat := 0
  height : Nat := 0
  multiSamples : Nat := 1
  customMultiSampling : Bool := false
  attachments : List AttachmentDescriptor := []
deriving DecidableEq

/-- The member state of `GLRenderTarget`.  GL object names are modelled by
fixed ids: the primary framebuffer is id 1 and the multi-sample framebuffer
id 2.  `hasRenderbuffer` models whether `renderbuffer_` has been generated by
`CreateAndAttachRenderbuffer`; `numRenderbuffersMS` the size of
`renderbuffersMS_`. -/
structure GLRenderTargetState where
  width : Nat := 0
  height : Nat := 0
  multiSamples : Nat := 1
  blitMask : Nat := 0
  hasRenderbuffer : Bool := false
  colorAttachments : List Nat := []
  hasFramebufferMS : Bool := false
  numRenderbuffersMS : Nat := 0
deriving DecidableEq

/-- The exceptions thrown while building a `GLRenderTarget`:
`ErrDepthAttachmentFailed` (lines 28-32), `ErrTooManyColorAttachments`
(lines 34-41) and the `std::invalid_argument` for a color attachment without
a texture (line 269). -/
inductive AttachmentError where
  | duplicateDepthAttachment
  | tooManyColorAttachments
  | colorAttachmentWithoutTexture
deriving DecidableEq

/-! ### Queries (GLRenderTarget.cpp lines 81-94, 462-476) -/

/-- `GLRenderTarget::GetNumColorAttachments` (lines 81-84). -/
def GetNumColorAttachments (s : GLRenderTargetState) : Nat :=
  s.colorAttachments.length

/-- `GLRenderTarget::HasDepthAttachment` (lines 86-89). -/
def HasDepthAttachment (s : GLRenderTargetState) : Bool :=
  s.blitMask &&& GL_DEPTH_BUFFER_BIT ≠ 0

/-- `GLRenderTarget::HasStencilAttachment` (lines 91-94). -/
def HasStencilAttachment (s : GLRenderTargetState) : Bool :=
  s.blitMask &&& GL_STENCIL_BUFFER_BIT ≠ 0

/-- `GLRenderTarget::HasDepthStencilAttachment` (lines 472-476). -/
def HasDepthStencilAttachment (s : GLRenderTargetState) : Bool :=
  s.blitMask &&& (GL_DEPTH_BUFFER_BIT ||| GL_STENCIL_BUFFER_BIT) ≠ 0

/-- `GLRenderTarget::HasMultiSampling` (lines 462-465). -/
def HasMultiSampling (s : GLRenderTargetState) : Bool :=
  decide (s.multiSamples > 1)

/-! ### Attachment construction (GLRenderTarget.cpp) -/

/-- The loop body count of `CountColorAttachments` (lines 49-63): the number
of descriptors whose `type` is `AttachmentType::Color`. -/
def numColorAttachmentsOf (attachmentDescs : List AttachmentDescriptor) : Nat :=
  (attachmentDescs.filter (fun a => a.type = AttachmentType.Color)).length

/-- `CountColorAttachments` (lines 49-63): counts the `Color`-typed
descriptors and throws `ErrTooManyColorAttachments` when the count exceeds
`g_maxFramebufferAttachments`. -/
def CountColorAttachments (attachmentDescs : List AttachmentDescriptor) :
    Except AttachmentError Nat :=
  let numColorAttachments := numColorAttachmentsOf attachmentDescs
  if numColorAttachments > g_maxFramebufferAttachments then
    .error AttachmentError.tooManyColorAttachments
  else
    .ok numColorAttachments

/-- `GLRenderTarget::CreateAndAttachRenderbuffer` (lines 397-412): creates
`renderbuffer_` if it does not exist yet, else throws
`ErrDepthAttachmentFailed`. -/
def CreateAndAttachRenderbuffer (s : GLRenderTargetState) :
    Except AttachmentError GLRenderTargetState :=
  if !s.hasRenderbuffer then
    .ok { s with hasRenderbuffer := true }
  else
    .error AttachmentError.duplicateDepthAttachment

/-- `GLRenderTarget::AttachDepthBuffer` (lines 285-289). -/
def AttachDepthBuffer (s : GLRenderTargetState) : Except AttachmentError GLRenderTargetState :=
  match CreateAndAttachRenderbuffer s with
  | .error e => .error e
  | .ok s => .ok { s with blitMask := s.blitMask ||| GL_DEPTH_BUFFER_BIT }

/-- `GLRenderTarget::AttachStencilBuffer` (lines 291-295). -/
def AttachStencilBuffer (s : GLRenderTargetState) : Except AttachmentError GLRenderTargetState :=
  match CreateAndAttachRenderbuffer s with
  | .error e => .error e
  | .ok s => .ok { s with blitMask := s.blitMask ||| GL_STENCIL_BUFFER_BIT }

/-- `GLRenderTarget::AttachDepthStencilBuffer` (lines 297-301). -/
def AttachDepthStencilBuffer (s : GLRenderTargetState) : Except AttachmentError GLRenderTargetState :=
  match CreateAndAttachRenderbuffer s with
  | .error e => .error e
  | .ok s => .ok { s with blitMask := s.blitMask ||| (GL_DEPTH_BUFFER_BIT ||| GL_STENCIL_BUFFER_BIT) }

/-- `GLRenderTarget::AttachAllDepthStencilBuffers` (lines 259-283): for each
descriptor without a texture, dispatch on its type; a `Color` descriptor
without a texture throws `std::invalid_argument`. -/
def AttachAllDepthStencilBuffers :
    List AttachmentDescriptor → GLRenderTargetState → Except AttachmentError GLRenderTargetState
  | [], s => .ok s
  | attachmentDesc :: rest, s =>
    match attachmentDesc.texture with
    | some _ => AttachAllDepthStencilBuffers rest s
    | none =>
      match attachmentDesc.type with
      | AttachmentType.Color => .error AttachmentError.colorAttachmentWithoutTexture
      | AttachmentType.Depth =>
        match AttachDepthBuffer s with
        | .error e => .error e
        | .ok s => AttachAllDepthStencilBuffers rest s
      | AttachmentType.DepthStencil =>
        match AttachDepthStencilBuffer s with
        | .error e => .error e
        | .ok s => AttachAllDepthStencilBuffers rest s
      | AttachmentType.Stencil =>
        match AttachStencilBuffer s with
        | .error e => .error e
        | .ok s => AttachAllDepthStencilBuffers rest s

/-- `GLRenderTarget::MakeFramebufferAttachment` (lines 414-446): routes by the
texture's internal format; a second depth or depth-stencil texture throws
`ErrDepthAttachmentFailed`; any other format is a color attachment receiving
the next consecutive `GL_COLOR_ATTACHMENT0 + i` slot. -/
def MakeFramebufferAttachment (internalFormat : GLTexFormat) (s : GLRenderTargetState) :
    Except AttachmentError (Nat × GLRenderTargetState) :=
  match internalFormat with
  | GLTexFormat.depthComponent =>
    if !HasDepthStencilAttachment s then
      .ok (GL_DEPTH_ATTACHMENT, { s with blitMask := s.blitMask ||| GL_DEPTH_BUFFER_BIT })
    else
      .error AttachmentError.duplicateDepthAttachment
  | GLTexFormat.depthStencil =>
    if !HasDepthStencilAttachment s then
      .ok (GL_DEPTH_STENCIL_ATTACHMENT,
           { s with blitMask := s.blitMask ||| (GL_DEPTH_BUFFER_BIT ||| GL_STENCIL_BUFFER_BIT) })
    else
      .error AttachmentError.duplicateDepthAttachment
  | GLTexFormat.other =>
    let attachment := GL_COLOR_ATTACHMENT0 + s.colorAttachments.length
    .ok (attachment, { s with blitMask := s.blitMask ||| GL_COLOR_BUFFER_BIT
                              colorAttachments := s.colorAttachments ++ [attachment] })

/-- `GLRenderTarget::AttachTexture` (lines 314-355): queries the texture's
internal format, routes through `MakeFramebufferAttachment` and performs the
native attach call for the texture's dimensionality (no state translated from
the latter). -/
def AttachTexture (internalFormat : GLTexFormat) (s : GLRenderTargetState) :
    Except AttachmentError GLRenderTargetState :=
  match MakeFramebufferAttachment internalFormat s with
  | .error e => .error e
  | .ok (_attachment, s) => .ok s

/-- `GLRenderTarget::AttachAllTextures` (lines 245-257): processes every
descriptor that carries a texture. -/
def AttachAllTextures :
    List AttachmentDescriptor → GLRenderTargetState → Except AttachmentError GLRenderTargetState
  | [], s => .ok s
  | attachmentDesc :: rest, s =>
    match attachmentDesc.texture with
    | none => AttachAllTextures rest s
    | some internalFormat =>
      match AttachTexture internalFormat s with
      | .error e => .error e
      | .ok s => AttachAllTextures rest s

/-- The indices at which `AttachAllTextures` (lines 245-257) writes into the
caller's `internalFormats[g_maxFramebufferAttachments]` array: the loop
evaluates `internalFormats[colorAttachmentIndex++]` for every descriptor that
carries a texture, and `AttachTexture` assigns through that reference before
any validation of the attachment can throw. -/
def internalFormatWriteIndices : List AttachmentDescriptor → Nat → List Nat
  | [], _ => []
  | attachmentDesc :: rest, colorAttachmentIndex =>
    match attachmentDesc.texture with
    | none => internalFormatWriteIndices rest colorAttachmentIndex
    | some _ => colorAttachmentIndex :: internalFormatWriteIndices rest (colorAttachmentIndex + 1)

/-- `GLRenderTarget::CreateRenderbuffersMS` (lines 357-371): creates one
multi-sample renderbuffer per color attachment slot. -/
def CreateRenderbuffersMS (s : GLRenderTargetState) : GLRenderTargetState :=
  { s with numRenderbuffersMS := s.colorAttachments.length }

/-- `GLRenderTarget::CreateFramebufferWithAttachments` (lines 160-206):
creates the secondary FBO when standard multi-sampling is enabled, validates
the color-attachment count, then attaches in the order the source uses —
textures first on the multi-sampled path (depth-stencil buffers and
renderbuffers go to the multi-sample FBO afterwards), depth-stencil buffers
first otherwise.  Native framebuffer-completeness checks and draw-buffer
routing change no member state. -/
def CreateFramebufferWithAttachments (desc : RenderTargetDescriptor) :
    Except AttachmentError GLRenderTargetState :=
  let s : GLRenderTargetState :=
    { width := desc.width, height := desc.height, multiSamples := desc.multiSamples }
  let s := { s with hasFramebufferMS := HasMultiSampling s && !desc.customMultiSampling }
  match CountColorAttachments desc.attachments with
  | .error e => .error e
  | .ok _numColorAttachments =>
    if s.hasFramebufferMS then
      match AttachAllTextures desc.attachments s with
      | .error e => .error e
      | .ok s =>
        match AttachAllDepthStencilBuffers desc.attachments s with
        | .error e => .error e
        | .ok s => .ok (CreateRenderbuffersMS s)
    else
      match AttachAllDepthStencilBuffers desc.attachments s with
      | .error e => .error e
      | .ok s =>
        match AttachAllTextures desc.attachments s with
        | .error e => .error e
        | .ok s => .ok s

/-- The `GLRenderTarget` constructor (lines 70-79): an empty attachment list
takes the `CreateFramebufferWithNoAttachments` path (lines 208-243), which
binds no color attachment slot and leaves the blit mask empty; otherwise
`CreateFramebufferWithAttachments` runs. -/
def GLRenderTargetCreate (desc : RenderTargetDescriptor) :
    Except AttachmentError GLRenderTargetState :=
  if desc.attachments.isEmpty then
    .ok { width := desc.width, height := desc.height, multiSamples := desc.multiSamples }
  else
    CreateFramebufferWithAttachments desc

/-- Whether the constructor completes without throwing. -/
def bindSucceeds (desc : RenderTargetDescriptor) : Bool :=
  match GLRenderTargetCreate desc with
  | .ok _ => true
  | .error _ => false

/-! ### Multi-sample resolve ("blit") paths (GLRenderTarget.cpp lines 99-153) -/

/-- One native GL call issued by the resolve paths. -/
inductive GLCall where
  | bindFramebuffer (target fbID : Nat)
  | readBuffer (attachment : Nat)
  | drawBuffer (attachment : Nat)
  | blit (width height mask : Nat)
deriving DecidableEq

/-- `GLRenderTarget::BlitFramebuffer` (lines 99-106). -/
def BlitFramebuffer (s : GLRenderTargetState) : GLCall :=
  GLCall.blit s.width s.height s.blitMask

/-- `GLRenderTarget::GetFramebuffer().GetID()` (lines 150-153): the
multi-sample framebuffer when it exists, else the primary one (model ids 2
and 1). -/
def GetFramebufferID (s : GLRenderTargetState) : Nat :=
  if s.hasFramebufferMS then 2 else 1

/-- `GLRenderTarget::BlitOntoFramebuffer` (lines 112-129), the `ResolveToMain`
operation: guarded by the existence of the multi-sample framebuffer and a
non-empty color attachment list. -/
def BlitOntoFramebuffer (s : GLRenderTargetState) : List GLCall :=
  if s.hasFramebufferMS && !s.colorAttachments.isEmpty then
    [GLCall.bindFramebuffer GL_DRAW_FRAMEBUFFER 1,
     GLCall.bindFramebuffer GL_READ_FRAMEBUFFER 2]
    ++ (s.colorAttachments.map
        (fun attachment => [GLCall.readBuffer attachment,
                            GLCall.drawBuffer attachment,
                            BlitFramebuffer s])).flatten
    ++ [GLCall.bindFramebuffer GL_READ_FRAMEBUFFER 0,
        GLCall.bindFramebuffer GL_DRAW_FRAMEBUFFER 0]
  else
    []

/-- `GLRenderTarget::BlitOntoScreen` (lines 135-148), the
`ResolveToPresentationSurface` operation: guarded only by the color
attachment index being in range. -/
def BlitOntoScreen (s : GLRenderTargetState) (colorAttachmentIndex : Nat) : List GLCall :=
  if colorAttachmentIndex < s.colorAttachments.length then
    [GLCall.bindFramebuffer GL_DRAW_FRAMEBUFFER 0,
     GLCall.bindFramebuffer GL_READ_FRAMEBUFFER (GetFramebufferID s),
     GLCall.readBuffer (s.colorAttachments.getD colorAttachmentIndex 0),
     GLCall.drawBuffer GL_BACK,
     BlitFramebuffer s,
     GLCall.bindFramebuffer GL_READ_FRAMEBUFFER 0]
  else
    []

/-! ### The depth-or-stencil classification used by the claims -/

/-- An attachment descriptor of the depth-or-stencil class: a textureless
descriptor whose type is `Depth`, `Stencil` or `DepthStencil`, or a
texture-backed descriptor whose texture has a depth or depth-stencil internal
format. -/
def isDepthStencilClass (a : AttachmentDescriptor) : Bool :=
  match a.texture with
  | none => a.type ≠ AttachmentType.Color
  | some internalFormat =>
    internalFormat = GLTexFormat.depthComponent ∨ internalFormat = GLTexFormat.depthStencil

/-- The number of depth-or-stencil-class attachments of a descriptor list. -/
def countDepthStencilClass (attachmentDescs : List AttachmentDescriptor) : Nat :=
  (attachmentDescs.filter isDepthStencilClass).length

/-- The number of descriptors that carry a texture (paces the
`internalFormats` write index of `AttachAllTextures`). -/
def countTextured (attachmentDescs : List AttachmentDescriptor) : Nat :=
  (attachmentDescs.filter (fun a => a.texture.isSome)).length

/-- The depth-or-stencil-class attachments processed by
`AttachAllDepthStencilBuffers`: textureless and not of type `Color`. -/
def isDSBufferless (a : AttachmentDescriptor) : Bool :=
  a.texture.isNone && a.type ≠ AttachmentType.Color

/-- Count of textureless depth-or-stencil-class attachments. -/
def countDSBufferless (attachmentDescs : List AttachmentDescriptor) : Nat :=
  (attachmentDescs.filter isDSBufferless).length

/-- The depth-or-stencil-class attachments processed by `AttachAllTextures`:
texture-backed with a depth or depth-stencil internal format. -/
def isDSTextured (a : AttachmentDescriptor) : Bool :=
  match a.texture with
  | none => false
  | some internalFormat =>
    internalFormat = GLTexFormat.depthComponent ∨ internalFormat = GLTexFormat.depthStencil

/-- Count of texture-backed depth-or-stencil-class attachments. -/
def countDSTextured (attachmentDescs : List AttachmentDescriptor) : Nat :=
  (attachmentDescs.filter isDSTextured).length

/-! ### Concrete example inputs -/

/-- A non-multisampled descriptor with one texture-backed color attachment. -/
def descOneColor : RenderTargetDescriptor :=
  { width := 8, height := 8, multiSamples := 1, customMultiSampling := false
    attachments := [{ type := AttachmentType.Color, texture := some GLTexFormat.other }] }

/-- The render-target state `GLRenderTargetCreate descOneColor` produces:
no secondary multisample framebuffer, one color attachment slot. -/
def rtOneColor : GLRenderTargetState :=
  { width := 8, height := 8, multiSamples := 1, blitMask := GL_COLOR_BUFFER_BIT
    hasRenderbuffer := false, colorAttachments := [GL_COLOR_ATTACHMENT0]
    hasFramebufferMS := false, numRenderbuffersMS := 0 }

/-- A multisampled descriptor carrying two depth-class attachments: a
depth-format texture and a textureless depth attachment. -/
def descMSTwoDepth : RenderTargetDescriptor :=
  { width := 8, height := 8, multiSamples := 4, customMultiSampling := false
    attachments := [{ type := AttachmentType.Depth, texture := some GLTexFormat.depthComponent },
                    { type := AttachmentType.Depth, texture := none }] }

/-- A non-multisampled descriptor with a textureless `Depth` attachment
followed by a textureless `DepthStencil` attachment. -/
def descDepthPlusDepthStencil : RenderTargetDescriptor :=
  { attachments := [{ type := AttachmentType.Depth, texture := none },
                    { type := AttachmentType.DepthStencil, texture := none }] }

/-- 32 texture-backed color attachments followed by one texture-backed depth
attachment: passes the color-count validation with 33 textured entries. -/
def descOverflow : RenderTargetDescriptor :=
  { attachments :=
      List.replicate 32 { type := AttachmentType.Color, texture := some GLTexFormat.other } ++
      [{ type := AttachmentType.Depth, texture := some GLTexFormat.depthComponent }] }

/-- 33 texture-backed color attachments. -/
def desc33Colors : RenderTargetDescriptor :=
  { attachments :=
      List.replicate 33 { type := AttachmentType.Color, texture := some GLTexFormat.other } }

/-- Two texture-backed color attachments. -/
def descTwoColors : RenderTargetDescriptor :=
  { attachments :=
      List.replicate 2 { type := AttachmentType.Color, texture := some GLTexFormat.other } }

/-- A single textureless depth attachment without multisampling. -/
def descSingleDepth : RenderTargetDescriptor :=
  { attachments := [{ type := AttachmentType.Depth, texture := none }] }

end OpenGL

namespace VK

/-- The recorder state right after construction with two slots followed by
`SetPresentIndex 0`: no recording has begun, so the selected slot is idle. -/
def idleState : VKCommandBufferState :=
  SetPresentIndex (VKCommandBufferCreate 2) 0

/-- A session state whose active render target has three bound color
attachments and a depth-only attachment, with distinguishable cached clear
values. -/
def sThreeColorDepth : VKCommandBufferState :=
  { commandBufferList := [0, 1]
    commandBufferActiveList := [true, false]
    commandBufferActiveIdx := 0
    currentCommandBuffer := 0
    recordingFenceSignaled := [false, true]
    recordingFenceIdx := 0
    clearColor := 7
    clearDepth := 9
    clearStencil := 11
    numColorAttachments := 3
    hasDSVAttachment := true
    framebufferExtent := (640, 480) }

end VK

/-!
## Helper lemmas

Bitmask arithmetic on `Nat` and invariants of the attachment-processing
functions, shared by the claim theorems below.
-/

theorem nat_or_ne_zero_of_right {a b : Nat} (h : b ≠ 0) : a ||| b ≠ 0 := by
  intro hc
  apply h
  apply Nat.eq_of_testBit_eq
  intro i
  have hbit := congrArg (fun n => Nat.testBit n i) hc
  simp only [Nat.testBit_or, Nat.zero_testBit, Bool.or_eq_false_iff] at hbit
  simp [hbit.2]

theorem nat_and_or_right (a b c : Nat) : (a ||| b) &&& c = (a &&& c) ||| (b &&& c) := by
  rw [Nat.and_comm, Nat.and_or_distrib_left, Nat.and_comm c a, Nat.and_comm c b]

/-- Or-ing a mask that intersects `c` makes the `c`-test nonzero. -/
theorem orMask_and_ne_zero (m d c : Nat) (h : d &&& c ≠ 0) : (m ||| d) &&& c ≠ 0 := by
  rw [nat_and_or_right]
  exact nat_or_ne_zero_of_right h

/-- Or-ing a mask disjoint from `c` preserves the `c`-test. -/
theorem orMask_and_preserve (m d c : Nat) (h : d &&& c = 0) : (m ||| d) &&& c = m &&& c := by
  rw [nat_and_or_right, h, Nat.or_zero]

namespace OpenGL

/-- Splitting the depth-or-stencil-class count between the textureless
attachments (processed by `AttachAllDepthStencilBuffers`) and the
texture-backed ones (processed by `AttachAllTextures`). -/
theorem countDepthStencilClass_split (descs : List AttachmentDescriptor) :
    countDepthStencilClass descs = countDSBufferless descs + countDSTextured descs := by
  induction descs with
  | nil => rfl
  | cons a rest ih =>
    simp only [countDepthStencilClass, countDSBufferless, countDSTextured, List.filter] at *
    rcases hat : a.texture with _ | f
    · by_cases hty : a.type = AttachmentType.Color
      all_goals simp [isDepthStencilClass, isDSBufferless, isDSTextured, hat, hty, ih]
      all_goals omega
    · cases f <;> simp [isDepthStencilClass, isDSBufferless, isDSTextured, hat, ih] <;> omega

/-- `AttachAllDepthStencilBuffers` run to completion: at most one textureless
depth-or-stencil attachment can have been processed (none if `renderbuffer_`
already existed), processing one sets a depth/stencil blit bit, existing
depth/stencil blit bits persist, and with none present the state is
untouched. -/
theorem attachAllDepthStencilBuffers_ok (descs : List AttachmentDescriptor)
    (s s' : GLRenderTargetState)
    (h : AttachAllDepthStencilBuffers descs s = .ok s') :
    (countDSBufferless descs ≤ if s.hasRenderbuffer then 0 else 1)
    ∧ (1 ≤ countDSBufferless descs → HasDepthStencilAttachment s' = true)
    ∧ (HasDepthStencilAttachment s = true → HasDepthStencilAttachment s' = true)
    ∧ (countDSBufferless descs = 0 → s' = s) := by
  induction descs generalizing s with
  | nil =>
    simp only [AttachAllDepthStencilBuffers] at h
    cases h
    simp [countDSBufferless]
  | cons a rest ih =>
    rcases hat : a.texture with _ | f
    · rcases hty : a.type with _ | _ | _ | _
      · simp [AttachAllDepthStencilBuffers, hat, hty] at h
      all_goals {
        simp only [AttachAllDepthStencilBuffers, hat, hty,
          AttachDepthBuffer, AttachStencilBuffer, AttachDepthStencilBuffer,
          CreateAndAttachRenderbuffer] at h
        by_cases hrb : s.hasRenderbuffer
        · simp [hrb] at h
        · simp only [hrb, Bool.not_false, if_true] at h
          have ihm := ih _ h
          have hcount : countDSBufferless (a :: rest) = 1 + countDSBufferless rest := by
            simp [countDSBufferless, List.filter, isDSBufferless, hat, hty]
            omega
          have hrest0 : countDSBufferless rest = 0 := by
            have := ihm.1
            simp at this
            omega
          have hs' := ihm.2.2.2 hrest0
          subst hs'
          refine ⟨by simp [hrb, hcount, hrest0], fun _ => ?_, fun _ => ?_, by omega⟩ <;>
            { simp only [HasDepthStencilAttachment]
              rw [decide_eq_true_iff]
              apply orMask_and_ne_zero
              decide }
      }
    · have hcount : countDSBufferless (a :: rest) = countDSBufferless rest := by
        simp [countDSBufferless, List.filter, isDSBufferless, hat]
      simp only [AttachAllDepthStencilBuffers, hat] at h
      have ihm := ih _ h
      rw [hcount]
      exact ihm

/-- `AttachAllTextures` run to completion: at most one depth-format texture
can have been processed (none if a depth/stencil blit bit was already set),
and existing depth/stencil blit bits persist. -/
theorem attachAllTextures_ok (descs : List AttachmentDescriptor)
    (s s' : GLRenderTargetState)
    (h : AttachAllTextures descs s = .ok s') :
    (countDSTextured descs ≤ if HasDepthStencilAttachment s then 0 else 1)
    ∧ (HasDepthStencilAttachment s = true → HasDepthStencilAttachment s' = true) := by
  induction descs generalizing s with
  | nil =>
    simp only [AttachAllTextures] at h
    cases h
    simp [countDSTextured]
  | cons a rest ih =>
    rcases hat : a.texture with _ | f
    · have hcount : countDSTextured (a :: rest) = countDSTextured rest := by
        simp [countDSTextured, List.filter, isDSTextured, hat]
      simp only [AttachAllTextures, hat] at h
      rw [hcount]
      exact ih _ h
    · cases f
      case other =>
        have hcount : countDSTextured (a :: rest) = countDSTextured rest := by
          simp [countDSTextured, List.filter, isDSTextured, hat]
        simp only [AttachAllTextures, hat, AttachTexture, MakeFramebufferAttachment] at h
        have ihm := ih _ h
        have hpres : HasDepthStencilAttachment
            { s with blitMask := s.blitMask ||| GL_COLOR_BUFFER_BIT
                     colorAttachments := s.colorAttachments ++ [GL_COLOR_ATTACHMENT0 + s.colorAttachments.length] }
            = HasDepthStencilAttachment s := by
          simp only [HasDepthStencilAttachment]
          rw [orMask_and_preserve _ _ _ (by decide)]
        constructor
        · rw [hcount]
          have h1 := ihm.1
          rw [hpres] at h1
          exact h1
        · intro hds
          apply ihm.2
          rw [hpres]
          exact hds
      case depthComponent =>
        simp only [AttachAllTextures, hat, AttachTexture, MakeFramebufferAttachment] at h
        by_cases hds : HasDepthStencilAttachment s
        · simp [hds] at h
        · simp only [hds, Bool.not_false, if_pos] at h
          simp only [Bool.not_eq_true] at hds
          have hcount : countDSTextured (a :: rest) = 1 + countDSTextured rest := by
            simp [countDSTextured, List.filter, isDSTextured, hat]
            omega
          have hmidtrue : HasDepthStencilAttachment
              { s with blitMask := s.blitMask ||| GL_DEPTH_BUFFER_BIT } = true := by
            simp only [HasDepthStencilAttachment]
            rw [decide_eq_true_iff]
            apply orMask_and_ne_zero
            decide
          have ihm := ih _ h
          have hrest0 : countDSTextured rest = 0 := by
            have h1 := ihm.1
            rw [hmidtrue] at h1
            simpa using h1
          constructor
          · rw [hcount, hds]
            simp
            omega
          · intro hcontra
            rw [hcontra] at hds
            cases hds
      case depthStencil =>
        simp only [AttachAllTextures, hat, AttachTexture, MakeFramebufferAttachment] at h
        by_cases hds : HasDepthStencilAttachment s
        · simp [hds] at h
        · simp only [hds, Bool.not_false, if_pos] at h
          simp only [Bool.not_eq_true] at hds
          have hcount : countDSTextured (a :: rest) = 1 + countDSTextured rest := by
            simp [countDSTextured, List.filter, isDSTextured, hat]
            omega
          have hmidtrue : HasDepthStencilAttachment
              { s with blitMask := s.blitMask ||| (GL_DEPTH_BUFFER_BIT ||| GL_STENCIL_BUFFER_BIT) } = true := by
            simp only [HasDepthStencilAttachment]
            rw [decide_eq_true_iff]
            apply orMask_and_ne_zero
            decide
          have ihm := ih _ h
          have hrest0 : countDSTextured rest = 0 := by
            have h1 := ihm.1
            rw [hmidtrue] at h1
            simpa using h1
          constructor
          · rw [hcount, hds]
            simp
            omega
          · intro hcontra
            rw [hcontra] at hds
            cases hds

/-- When every descriptor carries only color-format textures,
`AttachAllTextures` succeeds, appends one color attachment slot per texture
and leaves the depth/stencil blit bits unchanged. -/
theorem attachAllTextures_allOther (descs : List AttachmentDescriptor)
    (s : GLRenderTargetState)
    (hall : ∀ a ∈ descs, ∀ f, a.texture = some f → f = GLTexFormat.other) :
    ∃ s', AttachAllTextures descs s = .ok s'
      ∧ s'.colorAttachments.length = s.colorAttachments.length + countTextured descs
      ∧ s'.blitMask &&& GL_DEPTH_BUFFER_BIT = s.blitMask &&& GL_DEPTH_BUFFER_BIT
      ∧ s'.blitMask &&& GL_STENCIL_BUFFER_BIT = s.blitMask &&& GL_STENCIL_BUFFER_BIT := by
  induction descs generalizing s with
  | nil => exact ⟨s, rfl, by simp [countTextured], rfl, rfl⟩
  | cons a rest ih =>
    rcases hat : a.texture with _ | f
    · have hcount : countTextured (a :: rest) = countTextured rest := by
        simp [countTextured, List.filter, hat]
      obtain ⟨s', h1, h2, h3, h4⟩ := ih s (fun b hb => hall b (List.mem_cons_of_mem a hb))
      exact ⟨s', by simpa [AttachAllTextures, hat] using h1, by omega, h3, h4⟩
    · have hf : f = GLTexFormat.other := hall a (List.mem_cons_self a rest) f hat
      subst hf
      have hcount : countTextured (a :: rest) = countTextured rest + 1 := by
        simp [countTextured, List.filter, hat]
      obtain ⟨s', h1, h2, h3, h4⟩ :=
        ih { s with blitMask := s.blitMask ||| GL_COLOR_BUFFER_BIT
                    colorAttachments := s.colorAttachments ++ [GL_COLOR_ATTACHMENT0 + s.colorAttachments.length] }
           (fun b hb => hall b (List.mem_cons_of_mem a hb))
      refine ⟨s', by simpa [AttachAllTextures, hat, AttachTexture, MakeFramebufferAttachment] using h1,
        ?_, ?_, ?_⟩
      · simp at h2
        omega
      · rw [h3, orMask_and_preserve _ _ _ (by decide)]
      · rw [h4, orMask_and_preserve _ _ _ (by decide)]

/-- When every descriptor carries a texture, `AttachAllDepthStencilBuffers`
is the identity. -/
theorem attachAllDepthStencilBuffers_allTextured (descs : List AttachmentDescriptor)
    (s : GLRenderTargetState)
    (hall : ∀ a ∈ descs, a.texture.isSome = true) :
    AttachAllDepthStencilBuffers descs s = .ok s := by
  induction descs with
  | nil => rfl
  | cons a rest ih =>
    have ha := hall a (List.mem_cons_self a rest)
    rcases hat : a.texture with _ | f
    · rw [hat] at ha
      cases ha
    · simp only [AttachAllDepthStencilBuffers, hat]
      exact ih (fun b hb => hall b (List.mem_cons_of_mem a hb))

/-- `AttachAllDepthStencilBuffers` never throws `ErrTooManyColorAttachments`. -/
theorem attachAllDepthStencilBuffers_error_ne (descs : List AttachmentDescriptor)
    (s : GLRenderTargetState) (e : AttachmentError)
    (h : AttachAllDepthStencilBuffers descs s = .error e) :
    e ≠ AttachmentError.tooManyColorAttachments := by
  induction descs generalizing s with
  | nil => simp [AttachAllDepthStencilBuffers] at h
  | cons a rest ih =>
    rcases hat : a.texture with _ | f
    · rcases hty : a.type with _ | _ | _ | _
      · simp only [AttachAllDepthStencilBuffers, hat, hty] at h
        cases h
        simp
      all_goals {
        simp only [AttachAllDepthStencilBuffers, hat, hty,
          AttachDepthBuffer, AttachStencilBuffer, AttachDepthStencilBuffer,
          CreateAndAttachRenderbuffer] at h
        by_cases hrb : s.hasRenderbuffer
        · simp only [hrb, Bool.not_true, if_neg, Bool.false_eq_true, not_false_iff] at h
          cases h
          simp
        · simp only [hrb, Bool.not_false, if_true] at h
          exact ih _ h
      }
    · simp only [AttachAllDepthStencilBuffers, hat] at h
      exact ih _ h

/-- `AttachAllTextures` never throws `ErrTooManyColorAttachments`. -/
theorem attachAllTextures_error_ne (descs : List AttachmentDescriptor)
    (s : GLRenderTargetState) (e : AttachmentError)
    (h : AttachAllTextures descs s = .error e) :
    e ≠ AttachmentError.tooManyColorAttachments := by
  induction descs generalizing s with
  | nil => simp [AttachAllTextures] at h
  | cons a rest ih =>
    rcases hat : a.texture with _ | f
    · simp only [AttachAllTextures, hat] at h
      exact ih _ h
    · cases f
      case other =>
        simp only [AttachAllTextures, hat, AttachTexture, MakeFramebufferAttachment] at h
        exact ih _ h
      all_goals {
        simp only [AttachAllTextures, hat, AttachTexture, MakeFramebufferAttachment] at h
        by_cases hds : HasDepthStencilAttachment s
        · simp only [hds, Bool.not_true, if_neg, Bool.false_eq_true, not_false_iff] at h
          cases h
          simp
        · simp only [hds, Bool.not_false, if_true] at h
          exact ih _ h
      }

/-- Every index written into `internalFormats` is below the starting index
plus the number of texture-carrying descriptors. -/
theorem internalFormatWriteIndices_lt (descs : List AttachmentDescriptor) (n : Nat) :
    ∀ i ∈ internalFormatWriteIndices descs n, i < n + countTextured descs := by
  induction descs generalizing n with
  | nil => simp [internalFormatWriteIndices]
  | cons a rest ih =>
    intro i hi
    rcases hat : a.texture with _ | f
    · rw [internalFormatWriteIndices, hat] at hi
      have hcount : countTextured (a :: rest) = countTextured rest := by
        simp [countTextured, List.filter, hat]
      rw [hcount]
      exact ih n i hi
    · rw [internalFormatWriteIndices, hat] at hi
      have hcount : countTextured (a :: rest) = countTextured rest + 1 := by
        simp [countTextured, List.filter, hat]
      rw [hcount]
      rcases List.mem_cons.mp hi with hh | ht
      · omega
      · have := ih (n + 1) i ht
        omega

/-- When every texture-carrying descriptor is of type `Color`, the number of
texture-carrying descriptors is bounded by the `Color`-typed count that
`CountColorAttachments` validates. -/
theorem countTextured_le_numColor (descs : List AttachmentDescriptor)
    (h : ∀ a ∈ descs, a.texture.isSome = true → a.type = AttachmentType.Color) :
    countTextured descs ≤ numColorAttachmentsOf descs := by
  induction descs with
  | nil => simp [countTextured, numColorAttachmentsOf]
  | cons a rest ih =>
    have ihr := ih (fun b hb => h b (List.mem_cons_of_mem a hb))
    rcases hat : a.texture with _ | f
    · have h1 : countTextured (a :: rest) = countTextured rest := by
        simp [countTextured, List.filter, hat]
      have h2 : numColorAttachmentsOf rest ≤ numColorAttachmentsOf (a :: rest) := by
        simp only [numColorAttachmentsOf, List.filter]
        split <;> simp
      omega
    · have ha : a.type = AttachmentType.Color := by
        apply h a (List.mem_cons_self a rest)
        simp [hat]
      have h1 : countTextured (a :: rest) = countTextured rest + 1 := by
        simp [countTextured, List.filter, hat]
      have h2 : numColorAttachmentsOf (a :: rest) = numColorAttachmentsOf rest + 1 := by
        simp [numColorAttachmentsOf, List.filter, ha]
      omega

end OpenGL

/-- Reading any in-range position of a replicated list yields the replicated
element. -/
theorem getD_replicate {α : Type} (b d : α) (n i : Nat) (h : i < n) :
    (List.replicate n b).getD i d = b := by
  induction n generalizing i with
  | zero => omega
  | succ m ih =>
    cases i with
    | zero => rfl
    | succ j =>
      simp only [List.replicate, List.getD, List.getElem?_cons_succ] at *
      have := ih j (by omega)
      simpa [List.getD] using this

/-!
## Claim theorems
-/

/-- C1: the spec claims `SetViewports` with 20 viewports issues exactly two
batched native calls covering [0,16) and [16,20).  The source loop compares
the absolute index `i` against the decremented remaining count, so after the
first batch (`first = 0`, `count = 16`) the condition `16 < 4` fails and the
loop exits: exactly one native call is issued and the entries 16..19 are
never forwarded.  This evaluates the embedded loop at the failing input. -/
theorem claim_C1_setViewports_code_bug :
    VK.SetViewports 20 = [VK.VKCall.cmdSetViewport 0 16] := by
  rw [VK.SetViewports, VK.setViewportsLoop]
  norm_num [VK.g_maxNumViewportsPerBatch]
  rw [VK.setViewportsLoop]
  norm_num

/-- C5: `Clear(Color | Depth)` on a session with 3 bound color attachments
and a depth-stencil attachment produces exactly 4 clear entries — 3 color
entries with indices 0, 1, 2 carrying the cached clear color, plus one
depth entry whose aspect mask is exactly the depth bit (the stencil bit is
absent) — submitted as a single clear-attachments call over the full
render-pass rectangle with one array layer. -/
theorem claim_C5_clear_color_depth (s : VK.VKCommandBufferState)
    (h3 : s.numColorAttachments = 3) (hdsv : s.hasDSVAttachment = true) :
    VK.ClearCalls s (VK.ClearFlagsColor ||| VK.ClearFlagsDepth) =
      [([{ aspectMask := VK.VK_IMAGE_ASPECT_COLOR_BIT, colorAttachment := 0,
           clearValue := VK.VKClearValue.color s.clearColor },
         { aspectMask := VK.VK_IMAGE_ASPECT_COLOR_BIT, colorAttachment := 1,
           clearValue := VK.VKClearValue.color s.clearColor },
         { aspectMask := VK.VK_IMAGE_ASPECT_COLOR_BIT, colorAttachment := 2,
           clearValue := VK.VKClearValue.color s.clearColor },
         { aspectMask := VK.VK_IMAGE_ASPECT_DEPTH_BIT, colorAttachment := 0,
           clearValue := VK.VKClearValue.depthStencil s.clearDepth s.clearStencil }],
        { offsetX := 0, offsetY := 0, extent := s.framebufferExtent,
          baseArrayLayer := 0, layerCount := 1 })]
    ∧ VK.GetDepthStencilAspectMask (VK.ClearFlagsColor ||| VK.ClearFlagsDepth)
        &&& VK.VK_IMAGE_ASPECT_DEPTH_BIT ≠ 0
    ∧ VK.GetDepthStencilAspectMask (VK.ClearFlagsColor ||| VK.ClearFlagsDepth)
        &&& VK.VK_IMAGE_ASPECT_STENCIL_BIT = 0 := by
  refine ⟨?_, by decide, by decide⟩
  simp [VK.ClearCalls, VK.Clear, VK.ClearFramebufferAttachments,
    VK.GetDepthStencilAspectMask, VK.ClearFlagsColor, VK.ClearFlagsDepth,
    VK.ClearFlagsStencil, VK.ClearFlagsDepthStencil, VK.VK_IMAGE_ASPECT_COLOR_BIT,
    VK.VK_IMAGE_ASPECT_DEPTH_BIT, VK.VK_IMAGE_ASPECT_STENCIL_BIT,
    VK.g_maxNumColorAttachments, h3, hdsv, List.range_succ]
  decide

/-- C5 witness: the theorem applied to a concrete session state. -/
theorem claim_C5_clear_color_depth_witness :
    VK.sThreeColorDepth.numColorAttachments = 3
    ∧ VK.sThreeColorDepth.hasDSVAttachment = true
    ∧ (VK.ClearCalls VK.sThreeColorDepth (VK.ClearFlagsColor ||| VK.ClearFlagsDepth) =
        [([{ aspectMask := VK.VK_IMAGE_ASPECT_COLOR_BIT, colorAttachment := 0,
             clearValue := VK.VKClearValue.color VK.sThreeColorDepth.clearColor },
           { aspectMask := VK.VK_IMAGE_ASPECT_COLOR_BIT, colorAttachment := 1,
             clearValue := VK.VKClearValue.color VK.sThreeColorDepth.clearColor },
           { aspectMask := VK.VK_IMAGE_ASPECT_COLOR_BIT, colorAttachment := 2,
             clearValue := VK.VKClearValue.color VK.sThreeColorDepth.clearColor },
           { aspectMask := VK.VK_IMAGE_ASPECT_DEPTH_BIT, colorAttachment := 0,
             clearValue := VK.VKClearValue.depthStencil VK.sThreeColorDepth.clearDepth
               VK.sThreeColorDepth.clearStencil }],
          { offsetX := 0, offsetY := 0, extent := VK.sThreeColorDepth.framebufferExtent,
            baseArrayLayer := 0, layerCount := 1 })]
      ∧ VK.GetDepthStencilAspectMask (VK.ClearFlagsColor ||| VK.ClearFlagsDepth)
          &&& VK.VK_IMAGE_ASPECT_DEPTH_BIT ≠ 0
      ∧ VK.GetDepthStencilAspectMask (VK.ClearFlagsColor ||| VK.ClearFlagsDepth)
          &&& VK.VK_IMAGE_ASPECT_STENCIL_BIT = 0) :=
  ⟨rfl, rfl, claim_C5_clear_color_depth VK.sThreeColorDepth rfl rfl⟩

/-- C6 counterexample: on the freshly selected idle slot (`is-active` reads
`false`), `EndCommandBuffer` does not fail with `RecordingNotActive`; it
closes the native recording scope and succeeds, refuting the claimed
error-handling behavior at this concrete input. -/
theorem claim_C6_counterexample :
    VK.IsCommandBufferActive VK.idleState = some false
    ∧ VK.EndCommandBuffer VK.idleState ≠ Except.error VK.RecordingError.recordingNotActive
    ∧ VK.EndCommandBuffer VK.idleState =
        Except.ok ({ VK.idleState with commandBufferActiveList := [false, false] },
                   [VK.VKCall.cmdEndCommandBuffer]) := by
  refine ⟨by decide, fun h => Except.noConfusion h, rfl⟩

/-- C6 amended: `EndCommandBuffer` never raises `RecordingNotActive`; in
every recorder state — active or idle — it unconditionally issues the native
`vkEndCommandBuffer` call and stores `false` through the activity
iterator. -/
theorem claim_C6_amended (s : VK.VKCommandBufferState) :
    VK.EndCommandBuffer s ≠ Except.error VK.RecordingError.recordingNotActive
    ∧ VK.EndCommandBuffer s =
        Except.ok ({ s with commandBufferActiveList :=
                      s.commandBufferActiveList.set s.commandBufferActiveIdx false },
                   [VK.VKCall.cmdEndCommandBuffer]) :=
  ⟨fun h => Except.noConfusion h, rfl⟩

/-- C7: constructing the recorder with buffering depth `bufferCount`
allocates exactly `bufferCount` command-buffer handles and `bufferCount`
fences, every fence is signaled by its initial no-op submission, and the
first `BeginCommandBuffer` on any slot does not block on its fence wait. -/
theorem claim_C7_pool_construction (bufferCount i : Nat) (hi : i < bufferCount) :
    (VK.VKCommandBufferCreate bufferCount).commandBufferList.length = bufferCount
    ∧ (VK.VKCommandBufferCreate bufferCount).recordingFenceSignaled.length = bufferCount
    ∧ (VK.VKCommandBufferCreate bufferCount).recordingFenceSignaled.getD i false = true
    ∧ VK.beginWouldBlock (VK.SetPresentIndex (VK.VKCommandBufferCreate bufferCount) i) = false := by
  refine ⟨by simp [VK.VKCommandBufferCreate],
          by simp [VK.VKCommandBufferCreate, VK.CreateRecordingFences], ?_, ?_⟩
  · simp only [VK.VKCommandBufferCreate, VK.CreateRecordingFences, VK.queueSubmitNoOp]
    exact getD_replicate true false bufferCount i hi
  · simp only [VK.beginWouldBlock, VK.SetPresentIndex, VK.VKCommandBufferCreate,
      VK.CreateRecordingFences, VK.queueSubmitNoOp]
    rw [getD_replicate true false bufferCount i hi]
    rfl

/-- C7 witness: the theorem applied at buffering depth 3, slot 1. -/
theorem claim_C7_pool_construction_witness :
    1 < 3
    ∧ ((VK.VKCommandBufferCreate 3).commandBufferList.length = 3
      ∧ (VK.VKCommandBufferCreate 3).recordingFenceSignaled.length = 3
      ∧ (VK.VKCommandBufferCreate 3).recordingFenceSignaled.getD 1 false = true
      ∧ VK.beginWouldBlock (VK.SetPresentIndex (VK.VKCommandBufferCreate 3) 1) = false) :=
  ⟨by decide, claim_C7_pool_construction 3 1 (by decide)⟩

/-- C10: after `CreateCommandBuffers`, the activity iterator is
`commandBufferActiveList_.end()` — offset `bufferCount`, one past the last
element — so before any `SetPresentIndex`, `IsCommandBufferActive` (as used
by `SetRenderTarget`) reads a past-the-end position (`none` in the model),
not a valid element as the claim states. -/
theorem claim_C10_active_iterator_code_bug (bufferCount : Nat) :
    (VK.VKCommandBufferCreate bufferCount).commandBufferActiveIdx
        = (VK.VKCommandBufferCreate bufferCount).commandBufferActiveList.length
    ∧ VK.IsCommandBufferActive (VK.VKCommandBufferCreate bufferCount) = none := by
  constructor
  · rfl
  · simp [VK.IsCommandBufferActive, VK.VKCommandBufferCreate, List.get?_eq_none]

/-- C2 counterexample: a render target built without a secondary multisample
store but with one color attachment.  `ResolveToMain` (`BlitOntoFramebuffer`)
is a no-op on it, but `ResolveToPresentationSurface 0` (`BlitOntoScreen`)
still issues read/draw-buffer selection and blit calls, because its guard
checks only the slot index — refuting the claim that both are no-ops. -/
theorem claim_C2_counterexample :
    OpenGL.GLRenderTargetCreate OpenGL.descOneColor = Except.ok OpenGL.rtOneColor
    ∧ OpenGL.rtOneColor.hasFramebufferMS = false
    ∧ OpenGL.BlitOntoScreen OpenGL.rtOneColor 0 ≠ [] := by
  refine ⟨rfl, rfl, by decide⟩

/-- C2 amended: on a render target without a secondary multisample store,
`BlitOntoFramebuffer` (`ResolveToMain`) issues no native calls, while
`BlitOntoScreen slotIndex` (`ResolveToPresentationSurface`) is a no-op
exactly when `slotIndex` is out of range of the color-attachment list;
for any in-range slot it still issues blit calls reading from the primary
framebuffer. -/
theorem claim_C2_amended (s : OpenGL.GLRenderTargetState) (idx : Nat)
    (hms : s.hasFramebufferMS = false) :
    OpenGL.BlitOntoFramebuffer s = []
    ∧ (OpenGL.BlitOntoScreen s idx = [] ↔ s.colorAttachments.length ≤ idx) := by
  constructor
  · simp [OpenGL.BlitOntoFramebuffer, hms]
  · by_cases hidx : idx < s.colorAttachments.length
    · simp only [OpenGL.BlitOntoScreen, hidx, if_pos]
      constructor
      · intro h
        cases h
      · intro h
        omega
    · simp only [OpenGL.BlitOntoScreen, hidx, if_neg, not_false_iff]
      constructor
      · intro _
        omega
      · intro _
        trivial

/-- C2 witness: the amended theorem at the concrete target and slot 1. -/
theorem claim_C2_amended_witness :
    OpenGL.rtOneColor.hasFramebufferMS = false
    ∧ (OpenGL.BlitOntoFramebuffer OpenGL.rtOneColor = []
      ∧ (OpenGL.BlitOntoScreen OpenGL.rtOneColor 1 = []
          ↔ OpenGL.rtOneColor.colorAttachments.length ≤ 1)) :=
  ⟨rfl, claim_C2_amended OpenGL.rtOneColor 1 rfl⟩

/-- C9 counterexample: `descOverflow` carries 32 `Color`-typed attachments
and passes `CountColorAttachments`, yet its 33rd attachment also carries a
texture, so `AttachAllTextures` writes `internalFormats[32]` — one past the
end of the 32-entry buffer — refuting the claimed in-bounds property. -/
theorem claim_C9_counterexample :
    OpenGL.numColorAttachmentsOf OpenGL.descOverflow.attachments
        = OpenGL.g_maxFramebufferAttachments
    ∧ OpenGL.bindSucceeds OpenGL.descOverflow = true
    ∧ 32 ∈ OpenGL.internalFormatWriteIndices OpenGL.descOverflow.attachments 0
    ∧ ¬ (32 < OpenGL.g_maxFramebufferAttachments) := by
  refine ⟨by decide, by decide, by decide, by decide⟩

/-- C9 amended: the `internalFormats` write index advances once per
texture-carrying attachment, which the validation does not bound; the writes
stay strictly below 32 provided every texture-carrying attachment is of type
`Color` (the descriptor invariant), since then the textured count is bounded
by the validated color count. -/
theorem claim_C9_amended (descs : List OpenGL.AttachmentDescriptor)
    (hcolor : ∀ a ∈ descs, a.texture.isSome = true → a.type = OpenGL.AttachmentType.Color)
    (hval : OpenGL.numColorAttachmentsOf descs ≤ OpenGL.g_maxFramebufferAttachments) :
    (OpenGL.internalFormatWriteIndices descs 0).all
      (fun i => decide (i < OpenGL.g_maxFramebufferAttachments)) = true := by
  rw [List.all_eq_true]
  intro i hi
  rw [decide_eq_true_iff]
  have h1 := OpenGL.internalFormatWriteIndices_lt descs 0 i hi
  have h2 := OpenGL.countTextured_le_numColor descs hcolor
  simp only [OpenGL.g_maxFramebufferAttachments] at *
  omega

/-- C9 witness: the amended theorem at a concrete one-color descriptor. -/
theorem claim_C9_amended_witness :
    (∀ a ∈ OpenGL.descOneColor.attachments,
        a.texture.isSome = true → a.type = OpenGL.AttachmentType.Color)
    ∧ OpenGL.numColorAttachmentsOf OpenGL.descOneColor.attachments
        ≤ OpenGL.g_maxFramebufferAttachments
    ∧ (OpenGL.internalFormatWriteIndices OpenGL.descOneColor.attachments 0).all
        (fun i => decide (i < OpenGL.g_maxFramebufferAttachments)) = true :=
  ⟨by decide, by decide, claim_C9_amended OpenGL.descOneColor.attachments (by decide) (by decide)⟩

namespace OpenGL

/-- On the non-multisampled path, a successful bind implies at most one
depth-or-stencil-class attachment was present: the textureless ones are
bounded by the `renderbuffer_` guard, the texture-backed ones by the
blit-mask guard, and either kind sets the blit bits the other kind's guard
checks. -/
theorem createFramebufferWithAttachments_nonMS_ok (desc : RenderTargetDescriptor)
    (s' : GLRenderTargetState)
    (hms : (decide (desc.multiSamples > 1) && !desc.customMultiSampling) = false)
    (h : CreateFramebufferWithAttachments desc = .ok s') :
    countDepthStencilClass desc.attachments ≤ 1 := by
  simp only [CreateFramebufferWithAttachments, HasMultiSampling] at h
  rw [hms] at h
  simp only [Bool.false_eq_true, if_false] at h
  rcases hcc : CountColorAttachments desc.attachments with e | n
  · rw [hcc] at h
    exact Except.noConfusion h
  rw [hcc] at h
  dsimp only at h
  rcases hds : AttachAllDepthStencilBuffers desc.attachments
      { width := desc.width, height := desc.height, multiSamples := desc.multiSamples,
        blitMask := 0, hasRenderbuffer := false, colorAttachments := [],
        hasFramebufferMS := false, numRenderbuffersMS := 0 } with e | s1
  · rw [hds] at h
    exact Except.noConfusion h
  rw [hds] at h
  dsimp only at h
  rcases hat : AttachAllTextures desc.attachments s1 with e | s2
  · rw [hat] at h
    exact Except.noConfusion h
  have hphase1 := attachAllDepthStencilBuffers_ok desc.attachments _ _ hds
  have hphase2 := attachAllTextures_ok desc.attachments _ _ hat
  have hsplit := countDepthStencilClass_split desc.attachments
  have hrb0 : countDSBufferless desc.attachments ≤ 1 := by
    have h1 := hphase1.1
    simpa using h1
  rcases Nat.eq_zero_or_pos (countDSBufferless desc.attachments) with hz | hp
  · have hid := hphase1.2.2.2 hz
    subst hid
    have h2 := hphase2.1
    have hds0 : HasDepthStencilAttachment
        { width := desc.width, height := desc.height, multiSamples := desc.multiSamples,
          blitMask := 0, hasRenderbuffer := false, colorAttachments := ([] : List Nat),
          hasFramebufferMS := false, numRenderbuffersMS := 0 } = false := by
      simp [HasDepthStencilAttachment]
    rw [hds0] at h2
    simp at h2
    omega
  · have hds1 : HasDepthStencilAttachment s1 = true := hphase1.2.1 hp
    have h2 := hphase2.1
    rw [hds1] at h2
    simp at h2
    omega

end OpenGL

/-- C3 counterexample: a multisampled descriptor with two depth-class
attachments — a depth-format texture and a textureless depth attachment —
binds successfully: the texture is guarded by the blit-mask check on the
primary framebuffer, but the textureless depth buffer is guarded only by
`renderbuffer_` existence and is silently created on the multisample
framebuffer afterwards, refuting the claimed unconditional failure. -/
theorem claim_C3_counterexample :
    OpenGL.countDepthStencilClass OpenGL.descMSTwoDepth.attachments = 2
    ∧ OpenGL.bindSucceeds OpenGL.descMSTwoDepth = true := by
  refine ⟨by decide, by decide⟩

/-- C3 amended: on a descriptor that allocates no secondary multisample
framebuffer (sample count ≤ 1 or custom multisampling), a successful bind
implies at most one depth-or-stencil-class attachment; contrapositively, two
or more such attachments always make the bind fail (for a textureless
`Depth` plus `DepthStencil` pair the thrown error is
`ErrDepthAttachmentFailed`, i.e. `duplicateDepthAttachment`, with the first
attachment already created).  In the multisampled path the exclusivity can
be bypassed as the counterexample shows. -/
theorem claim_C3_amended (desc : OpenGL.RenderTargetDescriptor)
    (hms : (decide (desc.multiSamples > 1) && !desc.customMultiSampling) = false)
    (hok : OpenGL.bindSucceeds desc = true) :
    OpenGL.countDepthStencilClass desc.attachments ≤ 1 := by
  unfold OpenGL.bindSucceeds at hok
  rcases hcr : OpenGL.GLRenderTargetCreate desc with e | s'
  · rw [hcr] at hok
    simp at hok
  by_cases hemp : desc.attachments.isEmpty
  · rw [List.isEmpty_iff] at hemp
    rw [hemp]
    simp [OpenGL.countDepthStencilClass]
  · rw [OpenGL.GLRenderTargetCreate, if_neg hemp] at hcr
    exact OpenGL.createFramebufferWithAttachments_nonMS_ok desc s' hms hcr

/-- C3 witness: the amended theorem applied to a non-multisampled descriptor
with one textureless depth attachment (which binds successfully). -/
theorem claim_C3_amended_witness :
    (decide (OpenGL.descSingleDepth.multiSamples > 1)
        && !OpenGL.descSingleDepth.customMultiSampling) = false
    ∧ OpenGL.bindSucceeds OpenGL.descSingleDepth = true
    ∧ OpenGL.countDepthStencilClass OpenGL.descSingleDepth.attachments ≤ 1 :=
  ⟨by decide, by decide,
   claim_C3_amended OpenGL.descSingleDepth (by decide) (by decide)⟩

/-- C3 supporting fact (referenced by the amended wording): the example pair
`Depth` plus `DepthStencil` fails with the duplicate-depth error. -/
theorem depthPlusDepthStencil_duplicate_error :
    OpenGL.GLRenderTargetCreate OpenGL.descDepthPlusDepthStencil
      = Except.error OpenGL.AttachmentError.duplicateDepthAttachment := rfl

namespace OpenGL

/-- For a descriptor whose attachments are all texture-backed color-format
color attachments (at most 32 of them), `CreateFramebufferWithAttachments`
succeeds on both the multisampled and the non-multisampled path, binds one
color slot per attachment and sets no depth or stencil blit bit. -/
theorem createFramebufferWithAttachments_allColor (desc : RenderTargetDescriptor)
    (hk : desc.attachments.length ≤ 32)
    (hall : ∀ a ∈ desc.attachments,
        a.type = AttachmentType.Color ∧ a.texture = some GLTexFormat.other) :
    ∃ s', CreateFramebufferWithAttachments desc = .ok s'
      ∧ s'.colorAttachments.length = desc.attachments.length
      ∧ HasDepthAttachment s' = false
      ∧ HasStencilAttachment s' = false := by
  have hcolorcount : numColorAttachmentsOf desc.attachments = desc.attachments.length := by
    unfold numColorAttachmentsOf
    rw [List.filter_eq_self.mpr]
    intro a ha
    simp [(hall a ha).1]
  have htexcount : countTextured desc.attachments = desc.attachments.length := by
    unfold countTextured
    rw [List.filter_eq_self.mpr]
    intro a ha
    simp [(hall a ha).2]
  have hcc : CountColorAttachments desc.attachments
      = .ok (numColorAttachmentsOf desc.attachments) := by
    unfold CountColorAttachments
    rw [if_neg]
    simp only [g_maxFramebufferAttachments, not_lt]
    omega
  have hallTex : ∀ a ∈ desc.attachments, a.texture.isSome = true := by
    intro a ha
    rw [(hall a ha).2]
    rfl
  have hallOther : ∀ a ∈ desc.attachments, ∀ f, a.texture = some f → f = GLTexFormat.other := by
    intro a ha f hf
    rw [(hall a ha).2] at hf
    cases hf
    rfl
  simp only [CreateFramebufferWithAttachments, HasMultiSampling]
  rw [hcc]
  dsimp only
  by_cases hfb : (decide (desc.multiSamples > 1) && !desc.customMultiSampling) = true
  · rw [hfb]
    simp only [if_true]
    obtain ⟨s1, h1, hlen1, hd1, hs1⟩ := attachAllTextures_allOther desc.attachments
      { width := desc.width, height := desc.height, multiSamples := desc.multiSamples,
        blitMask := 0, hasRenderbuffer := false, colorAttachments := [],
        hasFramebufferMS := true, numRenderbuffersMS := 0 } hallOther
    rw [h1]
    dsimp only
    rw [attachAllDepthStencilBuffers_allTextured desc.attachments s1 hallTex]
    dsimp only
    refine ⟨CreateRenderbuffersMS s1, rfl, ?_, ?_, ?_⟩
    · simpa [CreateRenderbuffersMS, htexcount] using hlen1
    · simp only [CreateRenderbuffersMS, HasDepthAttachment]
      rw [decide_eq_false_iff_not]
      simp only at hd1
      rw [hd1, Nat.zero_and]
      simp
    · simp only [CreateRenderbuffersMS, HasStencilAttachment]
      rw [decide_eq_false_iff_not]
      simp only at hs1
      rw [hs1, Nat.zero_and]
      simp
  · rw [Bool.not_eq_true] at hfb
    rw [hfb]
    simp only [Bool.false_eq_true, if_false]
    rw [attachAllDepthStencilBuffers_allTextured desc.attachments _ hallTex]
    dsimp only
    obtain ⟨s1, h1, hlen1, hd1, hs1⟩ := attachAllTextures_allOther desc.attachments
      { width := desc.width, height := desc.height, multiSamples := desc.multiSamples,
        blitMask := 0, hasRenderbuffer := false, colorAttachments := [],
        hasFramebufferMS := false, numRenderbuffersMS := 0 } hallOther
    rw [h1]
    refine ⟨s1, rfl, ?_, ?_, ?_⟩
    · simpa [htexcount] using hlen1
    · simp only [HasDepthAttachment]
      rw [decide_eq_false_iff_not]
      simp only at hd1
      rw [hd1, Nat.zero_and]
      simp
    · simp only [HasStencilAttachment]
      rw [decide_eq_false_iff_not]
      simp only at hs1
      rw [hs1, Nat.zero_and]
      simp

end OpenGL

/-- C4: binding a valid descriptor with `k` texture-backed color attachments
(`0 ≤ k ≤ 32`, color-format textures) and no depth/stencil-class attachment
succeeds, and the bound render target reports `GetNumColorAttachments = k`,
`HasDepthAttachment = false` and `HasStencilAttachment = false` — on the
multisampled and non-multisampled paths alike. -/
theorem claim_C4_color_attachment_count (desc : OpenGL.RenderTargetDescriptor) (k : Nat)
    (hlen : desc.attachments.length = k) (hk : k ≤ 32)
    (hall : ∀ a ∈ desc.attachments,
        a.type = OpenGL.AttachmentType.Color ∧ a.texture = some OpenGL.GLTexFormat.other) :
    ∃ s', OpenGL.GLRenderTargetCreate desc = .ok s'
      ∧ OpenGL.GetNumColorAttachments s' = k
      ∧ OpenGL.HasDepthAttachment s' = false
      ∧ OpenGL.HasStencilAttachment s' = false := by
  by_cases hemp : desc.attachments.isEmpty
  · have hnil : desc.attachments = [] := List.isEmpty_iff.mp hemp
    refine ⟨_, by rw [OpenGL.GLRenderTargetCreate, if_pos hemp], ?_, ?_, ?_⟩
    · rw [hnil] at hlen
      simp only [List.length_nil] at hlen
      simp [OpenGL.GetNumColorAttachments, ← hlen]
    · simp [OpenGL.HasDepthAttachment]
    · simp [OpenGL.HasStencilAttachment]
  · obtain ⟨s', h, hlen', hd, hs⟩ :=
      OpenGL.createFramebufferWithAttachments_allColor desc (by omega) hall
    refine ⟨s', ?_, ?_, hd, hs⟩
    · rw [OpenGL.GLRenderTargetCreate, if_neg hemp]
      exact h
    · rw [OpenGL.GetNumColorAttachments, hlen', hlen]

/-- C4 witness: the theorem at a concrete two-color descriptor. -/
theorem claim_C4_color_attachment_count_witness :
    OpenGL.descTwoColors.attachments.length = 2
    ∧ 2 ≤ 32
    ∧ (∃ s', OpenGL.GLRenderTargetCreate OpenGL.descTwoColors = .ok s'
        ∧ OpenGL.GetNumColorAttachments s' = 2
        ∧ OpenGL.HasDepthAttachment s' = false
        ∧ OpenGL.HasStencilAttachment s' = false) :=
  ⟨by decide, by decide,
   claim_C4_color_attachment_count OpenGL.descTwoColors 2 (by decide) (by decide) (by decide)⟩

namespace OpenGL

/-- `CreateFramebufferWithAttachments` throws `ErrTooManyColorAttachments`
exactly when the `Color`-typed attachment count exceeds 32: the count is
validated before any attachment is processed, and no later step can throw
that error. -/
theorem createFramebufferWithAttachments_tooMany_iff (desc : RenderTargetDescriptor) :
    CreateFramebufferWithAttachments desc = .error AttachmentError.tooManyColorAttachments
      ↔ g_maxFramebufferAttachments < numColorAttachmentsOf desc.attachments := by
  constructor
  · intro h
    by_contra hle
    have hcc : CountColorAttachments desc.attachments
        = .ok (numColorAttachmentsOf desc.attachments) := by
      unfold CountColorAttachments
      rw [if_neg hle]
    simp only [CreateFramebufferWithAttachments, HasMultiSampling] at h
    rw [hcc] at h
    dsimp only at h
    split at h
    · rcases hat : AttachAllTextures desc.attachments
          { width := desc.width, height := desc.height, multiSamples := desc.multiSamples,
            blitMask := 0, hasRenderbuffer := false, colorAttachments := [],
            hasFramebufferMS := decide (desc.multiSamples > 1) && !desc.customMultiSampling,
            numRenderbuffersMS := 0 } with e | s1
      · rw [hat] at h
        dsimp only at h
        cases h
        exact attachAllTextures_error_ne desc.attachments _ _ hat rfl
      · rw [hat] at h
        dsimp only at h
        rcases hds : AttachAllDepthStencilBuffers desc.attachments s1 with e | s2
        · rw [hds] at h
          dsimp only at h
          cases h
          exact attachAllDepthStencilBuffers_error_ne desc.attachments _ _ hds rfl
        · rw [hds] at h
          exact Except.noConfusion h
    · rcases hds : AttachAllDepthStencilBuffers desc.attachments
          { width := desc.width, height := desc.height, multiSamples := desc.multiSamples,
            blitMask := 0, hasRenderbuffer := false, colorAttachments := [],
            hasFramebufferMS := decide (desc.multiSamples > 1) && !desc.customMultiSampling,
            numRenderbuffersMS := 0 } with e | s1
      · rw [hds] at h
        dsimp only at h
        cases h
        exact attachAllDepthStencilBuffers_error_ne desc.attachments _ _ hds rfl
      · rw [hds] at h
        dsimp only at h
        rcases hat : AttachAllTextures desc.attachments s1 with e | s2
        · rw [hat] at h
          dsimp only at h
          cases h
          exact attachAllTextures_error_ne desc.attachments _ _ hat rfl
        · rw [hat] at h
          exact Except.noConfusion h
  · intro hgt
    have hcc : CountColorAttachments desc.attachments
        = .error AttachmentError.tooManyColorAttachments := by
      unfold CountColorAttachments
      rw [if_pos hgt]
    simp only [CreateFramebufferWithAttachments, HasMultiSampling]
    rw [hcc]

end OpenGL

/-- C8: binding a descriptor with strictly more than 32 `Color`-typed
attachments fails with `ErrTooManyColorAttachments`, raised by the count
validation before any attachment is processed; with 32 or fewer this error
is never raised (any failure is a different error). -/
theorem claim_C8_too_many_color_attachments (desc : OpenGL.RenderTargetDescriptor) :
    (OpenGL.g_maxFramebufferAttachments < OpenGL.numColorAttachmentsOf desc.attachments →
      OpenGL.GLRenderTargetCreate desc
        = .error OpenGL.AttachmentError.tooManyColorAttachments)
    ∧ (OpenGL.numColorAttachmentsOf desc.attachments ≤ OpenGL.g_maxFramebufferAttachments →
      OpenGL.GLRenderTargetCreate desc
        ≠ .error OpenGL.AttachmentError.tooManyColorAttachments) := by
  constructor
  · intro hgt
    have hne : desc.attachments.isEmpty = false := by
      rcases hat : desc.attachments with _ | _
      · rw [hat] at hgt
        simp [OpenGL.numColorAttachmentsOf, OpenGL.g_maxFramebufferAttachments] at hgt
      · rfl
    rw [OpenGL.GLRenderTargetCreate, if_neg (by rw [hne]; exact Bool.false_ne_true)]
    exact (OpenGL.createFramebufferWithAttachments_tooMany_iff desc).mpr hgt
  · intro hle hcontra
    by_cases hemp : desc.attachments.isEmpty
    · rw [OpenGL.GLRenderTargetCreate, if_pos hemp] at hcontra
      exact Except.noConfusion hcontra
    · rw [OpenGL.GLRenderTargetCreate, if_neg hemp] at hcontra
      have := (OpenGL.createFramebufferWithAttachments_tooMany_iff desc).mp hcontra
      omega

/-- C8 witness: 33 color attachments fail with the count error; one color
attachment does not produce that error. -/
theorem claim_C8_too_many_color_attachments_witness :
    OpenGL.GLRenderTargetCreate OpenGL.desc33Colors
      = .error OpenGL.AttachmentError.tooManyColorAttachments
    ∧ OpenGL.GLRenderTargetCreate OpenGL.descOneColor
      ≠ .error OpenGL.AttachmentError.tooManyColorAttachments :=
  ⟨(claim_C8_too_many_color_attachments OpenGL.desc33Colors).1 (by decide),
   (claim_C8_too_many_color_attachments OpenGL.descOneColor).2 (by decide)⟩
